import Mathlib

/-!
A shallow embedding, in Lean 4, of the numeric core of the `btc` signal
service (files `app/ml/predictor.py`, `app/ml/feature_engineer.py`,
`app/services/indicator_calculator.py`, `app/services/prediction_service.py`),
together with theorems settling the specification claims about it.

Modelling conventions:
* Python / numpy floating-point numbers are modelled symbolically by `PyFloat`:
  a finite rational, `inf`, `-inf`, or `nan`.  Arithmetic follows IEEE-754
  special-value propagation; finite arithmetic is exact rational arithmetic
  (binary rounding error is abstracted away, which is the usual real-valued
  idealization).
* Python values that flow through the indicator / feature dictionaries are
  modelled by `PyVal`: `None`, a float, or a string.  Dictionaries are
  association lists, `dict.get` with a default is `dictGet`.
* Python exceptions (`TypeError` on `None < 30`, `ZeroDivisionError` on scalar
  float division by zero, `ValueError` on `max([])`) are modelled with
  `Except PyErr`; a Python `try/except` wrapper becomes a `match` mapping
  errors to the handler's result.
* `round(x, 2)` is round-half-to-even at two decimals on the exact rational.
-/

/-- Python exception kinds relevant to this core. -/
inductive PyErr
  | typeError
  | zeroDivisionError
  | valueError
  deriving DecidableEq, Repr

/-- Symbolic model of a Python / numpy float: finite rational or special value. -/
inductive PyFloat
  | fin (q : ℚ)
  | inf
  | ninf
  | nan
  deriving DecidableEq, Repr

namespace PyFloat

/-- IEEE negation. -/
def neg : PyFloat → PyFloat
  | fin q => fin (-q)
  | inf => ninf
  | ninf => inf
  | nan => nan

/-- IEEE addition (sign of zero ignored; irrelevant to the properties here). -/
def add : PyFloat → PyFloat → PyFloat
  | fin a, fin b => fin (a + b)
  | fin _, inf => inf
  | fin _, ninf => ninf
  | inf, fin _ => inf
  | ninf, fin _ => ninf
  | inf, inf => inf
  | ninf, ninf => ninf
  | inf, ninf => nan
  | ninf, inf => nan
  | _, nan => nan
  | nan, _ => nan

/-- IEEE subtraction. -/
def sub (a b : PyFloat) : PyFloat := add a (neg b)

/-- IEEE multiplication. -/
def mul : PyFloat → PyFloat → PyFloat
  | fin a, fin b => fin (a * b)
  | fin a, inf => if a = 0 then nan else if 0 < a then inf else ninf
  | fin a, ninf => if a = 0 then nan else if 0 < a then ninf else inf
  | inf, fin b => if b = 0 then nan else if 0 < b then inf else ninf
  | ninf, fin b => if b = 0 then nan else if 0 < b then ninf else inf
  | inf, inf => inf
  | ninf, ninf => inf
  | inf, ninf => ninf
  | ninf, inf => ninf
  | _, nan => nan
  | nan, _ => nan

/-- numpy-style division: division of a finite number by zero yields a signed
infinity (or `nan` for 0/0), as numpy scalars and pandas series do. -/
def div : PyFloat → PyFloat → PyFloat
  | fin a, fin b =>
      if b = 0 then (if a = 0 then nan else if 0 < a then inf else ninf)
      else fin (a / b)
  | fin _, inf => fin 0
  | fin _, ninf => fin 0
  | inf, fin b => if 0 ≤ b then inf else ninf
  | ninf, fin b => if 0 ≤ b then ninf else inf
  | inf, inf => nan
  | inf, ninf => nan
  | ninf, inf => nan
  | ninf, ninf => nan
  | _, nan => nan
  | nan, _ => nan

/-- Python scalar `/`: raises `ZeroDivisionError` on a zero denominator,
otherwise agrees with `div`. -/
def divE (a b : PyFloat) : Except PyErr PyFloat :=
  match b with
  | fin q => if q = 0 then .error .zeroDivisionError else .ok (div a (fin q))
  | _ => .ok (div a b)

/-- IEEE `<` (any comparison with `nan` is false). -/
def lt : PyFloat → PyFloat → Bool
  | fin a, fin b => decide (a < b)
  | fin _, inf => true
  | fin _, ninf => false
  | inf, fin _ => false
  | ninf, fin _ => true
  | inf, inf => false
  | ninf, ninf => false
  | ninf, inf => true
  | inf, ninf => false
  | _, nan => false
  | nan, _ => false

/-- IEEE `>`. -/
def gt (a b : PyFloat) : Bool := lt b a

/-- Python truthiness of a float: everything but (finite) zero is truthy;
`nan` and the infinities are truthy. -/
def truthy : PyFloat → Bool
  | fin q => decide (q ≠ 0)
  | _ => true

end PyFloat

/-- Round-half-to-even to an integer, as Python's `round` does (on the exact
rational value). -/
def rhe (x : ℚ) : ℤ :=
  let f := Rat.floor x
  let r := x - (f : ℚ)
  if r < 1/2 then f
  else if 1/2 < r then f + 1
  else if Even f then f else f + 1

/-- Python `round(x, 2)`: round-half-to-even at two decimal places. -/
def roundTo2 (x : ℚ) : ℚ := ((rhe (x * 100) : ℚ)) / 100

/-- `round(x, 2)` lifted to floats: Python's `round` maps `nan`/`inf` (with an
`ndigits` argument) to themselves. -/
def PyFloat.round2 : PyFloat → PyFloat
  | fin q => fin (roundTo2 q)
  | inf => inf
  | ninf => ninf
  | nan => nan

/-- A Python value as stored in the indicator / feature dictionaries. -/
inductive PyVal
  | none
  | num (x : PyFloat)
  | str (s : String)
  deriving DecidableEq, Repr

/-- Shorthand for a finite numeric value. -/
def mkNum (q : ℚ) : PyVal := .num (.fin q)

namespace PyVal

/-- Python truthiness: `None` and `0` and `""` are falsy. -/
def truthy : PyVal → Bool
  | none => false
  | num x => x.truthy
  | str s => decide (s ≠ "")

/-- Python `a < b`: defined between two numbers or two strings; comparing
`None` (or a string with a number) raises `TypeError`. -/
def ltE : PyVal → PyVal → Except PyErr Bool
  | num a, num b => .ok (a.lt b)
  | str a, str b => .ok (decide (a < b))
  | _, _ => .error .typeError

/-- Python `a > b`. -/
def gtE : PyVal → PyVal → Except PyErr Bool
  | num a, num b => .ok (a.gt b)
  | str a, str b => .ok (decide (b < a))
  | _, _ => .error .typeError

/-- Python `==` between dictionary values: never raises; values of different
kinds are simply unequal. -/
def eqB : PyVal → PyVal → Bool
  | none, none => true
  | num a, num b => decide (a = b)
  | str a, str b => decide (a = b)
  | _, _ => false

end PyVal

/-- A Python dictionary with string keys, as an association list. -/
abbrev PyDict := List (String × PyVal)

/-- Python `d.get(k, default)`: the stored value — possibly `None` — when the
key is present, the default otherwise. -/
def dictGet (d : PyDict) (k : String) (default : PyVal) : PyVal :=
  match d.lookup k with
  | some v => v
  | Option.none => default

/-- Python `d.get(k)` (default `None`). -/
def dictGetRaw (d : PyDict) (k : String) : PyVal := dictGet d k .none

theorem ratFloor_eq_intFloor (q : ℚ) : (Rat.floor q : ℤ) = ⌊q⌋ := by
  rw [Rat.floor_def', Rat.floor_def]

/-- `rhe` restated through `Int.floor`, for proofs. -/
theorem rhe_eq (x : ℚ) :
    rhe x = if x - (⌊x⌋ : ℚ) < 1/2 then ⌊x⌋
      else if 1/2 < x - (⌊x⌋ : ℚ) then ⌊x⌋ + 1
      else if Even ⌊x⌋ then ⌊x⌋ else ⌊x⌋ + 1 := by
  rw [rhe, ratFloor_eq_intFloor]

/-- Round-half-to-even never moves a value by more than 1/2. -/
theorem rhe_bounds (x : ℚ) : x - 1/2 ≤ (rhe x : ℚ) ∧ (rhe x : ℚ) ≤ x + 1/2 := by
  rw [rhe_eq]
  have h1 : (⌊x⌋ : ℚ) ≤ x := Int.floor_le x
  have h2 : x < (⌊x⌋ : ℚ) + 1 := Int.lt_floor_add_one x
  split_ifs <;> constructor <;> push_cast <;> linarith

/-- `round(x, 2)` never moves a value by more than 1/200. -/
theorem roundTo2_bounds (x : ℚ) : x - 1/200 ≤ roundTo2 x ∧ roundTo2 x ≤ x + 1/200 := by
  have h := rhe_bounds (x * 100)
  rw [roundTo2]
  constructor <;> [linarith [h.1]; linarith [h.2]]

/-! ## IndicatorCalculator (`app/services/indicator_calculator.py`)

Only the pieces the claims are about: `calculate_rsi` and
`calculate_bollinger_bands`.  Candle close series are lists of rationals
(oldest first), as produced by `prepare_dataframe`. -/

namespace IndicatorCalculator

/-- The non-leading entries of `df['close'].diff()`: consecutive deltas.
(`diff()` also has a leading `NaN`, handled in `gainList`/`lossList`.) -/
def pairDiffs (closes : List ℚ) : List ℚ := List.zipWith (· - ·) closes.tail closes

/-- `delta.where(delta > 0, 0)`: each delta kept when positive, else 0.
The leading `NaN` of `diff()` becomes 0 as well, because `NaN > 0` is False
and `where` replaces entries whose condition is False. -/
def gainList (closes : List ℚ) : List ℚ :=
  match closes with
  | [] => []
  | _ :: _ => 0 :: (pairDiffs closes).map (fun d => if 0 < d then d else 0)

/-- `(-delta.where(delta < 0, 0))`: minus each delta kept when negative, else 0;
the leading `NaN` becomes 0 as in `gainList`. -/
def lossList (closes : List ℚ) : List ℚ :=
  match closes with
  | [] => []
  | _ :: _ => 0 :: (pairDiffs closes).map (fun d => if d < 0 then -d else 0)

/-- Last entry of `series.rolling(window=p).mean()` over a NaN-free series:
the mean of the last `p` entries, `None` (NaN) when fewer than `p` entries
exist.  `rolling(0)` raises in pandas and the surrounding `except` turns that
into `None` as well. -/
def rollingMeanLast (xs : List ℚ) (p : ℕ) : Option ℚ :=
  if 0 < p ∧ p ≤ xs.length then some ((xs.drop (xs.length - p)).sum / (p : ℚ)) else none

/-- `IndicatorCalculator.calculate_rsi`: gain/loss rolling means, `rs = gain/loss`
(pandas division: `0/0 = NaN`, `pos/0 = inf`), `rsi = 100 - 100/(1+rs)`,
returned unless the final value is NaN (`pd.isna` check). -/
def calculate_rsi (closes : List ℚ) (period : ℕ) : Option PyFloat :=
  match rollingMeanLast (gainList closes) period, rollingMeanLast (lossList closes) period with
  | some g, some l =>
      let rs := PyFloat.div (.fin g) (.fin l)
      let rsi := PyFloat.sub (.fin 100) (PyFloat.div (.fin 100) (PyFloat.add (.fin 1) rs))
      if rsi = .nan then none else some rsi
  | _, _ => none

/-- `df['close'].rolling(window).mean()` at the last index: simple average. -/
noncomputable def sma (xs : List ℝ) : ℝ := xs.sum / xs.length

/-- `df['close'].rolling(window).std()` squared, at the last index: pandas uses
the sample variance (`ddof=1`). -/
noncomputable def sampleVar (xs : List ℝ) : ℝ :=
  ((xs.map (fun x => (x - sma xs) ^ 2)).sum) / ((xs.length : ℝ) - 1)

/-- Result dictionary of `calculate_bollinger_bands`. -/
structure BollingerBands where
  bb_upper : Option ℝ
  bb_middle : Option ℝ
  bb_lower : Option ℝ
  bb_width : Option ℝ

open Classical in
/-- `IndicatorCalculator.calculate_bollinger_bands` with its default arguments
`period=20`, `std=2`.  The band values are non-NaN exactly when the window has
at least 20 closes; the width is computed only when `upper_val and lower_val
and middle_val` are all truthy, i.e. all present and non-zero. -/
noncomputable def calculate_bollinger_bands (closes : List ℝ) : BollingerBands :=
  if 20 ≤ closes.length then
    let w := closes.drop (closes.length - 20)
    let middle := sma w
    let sd := Real.sqrt (sampleVar w)
    let upper := middle + sd * 2
    let lower := middle - sd * 2
    let width : Option ℝ :=
      if upper ≠ 0 ∧ lower ≠ 0 ∧ middle ≠ 0 then some ((upper - lower) / middle * 100)
      else none
    ⟨some upper, some middle, some lower, width⟩
  else ⟨none, none, none, none⟩

end IndicatorCalculator

/-! ## FeatureEngineer (`app/ml/feature_engineer.py`)

Candles are OHLCV records with rational (finite float) fields, as produced by
`generate_prediction`'s candle conversion.  Indicator and market-context
dictionaries may hold arbitrary `PyVal`s.  Feature sub-builders that wrap
their body in `try/except` and return `{}` on failure are modelled as an
`Except` body plus a `match` wrapper. -/

/-- One OHLCV candle (the fields used by the feature engineer). -/
structure Candle where
  open_price : ℚ
  high : ℚ
  low : ℚ
  close : ℚ
  volume : ℚ
  deriving DecidableEq, Repr

namespace FeatureEngineer

/-- `df[col].iloc[-k]` for the close column: the `k`-th element counting from
the end (1-based).  Only used under a length guard, so the fallback value is
never reached there. -/
def closeFromEnd (candles : List Candle) (k : ℕ) : ℚ :=
  ((candles.get? (candles.length - k)).map Candle.close).getD 0

/-- `df['volume'].iloc[-k]`. -/
def volumeFromEnd (candles : List Candle) (k : ℕ) : ℚ :=
  ((candles.get? (candles.length - k)).map Candle.volume).getD 0

/-- `FeatureEngineer.create_price_features`: 1-bar and 5-bar close changes and
the latest bar's high/low and close/open ratios.  `df.iloc[-1]` on an empty
frame raises `IndexError`, which the function's own `except` turns into `{}`.
The percentage changes divide numpy scalars, so a zero previous close yields
`inf`/`nan`, not an exception. -/
def create_price_features (candles : List Candle) : List (String × PyVal) :=
  match candles.getLast? with
  | Option.none => []
  | some last =>
      let n := candles.length
      let pc1 : PyVal :=
        if 2 ≤ n then
          .num (PyFloat.mul
            (PyFloat.div (.fin (closeFromEnd candles 1 - closeFromEnd candles 2))
              (.fin (closeFromEnd candles 2))) (.fin 100))
        else mkNum 0
      let pc5 : PyVal :=
        if 6 ≤ n then
          .num (PyFloat.mul
            (PyFloat.div (.fin (closeFromEnd candles 1 - closeFromEnd candles 6))
              (.fin (closeFromEnd candles 6))) (.fin 100))
        else mkNum 0
      let hl : PyVal := if 0 < last.low then mkNum (last.high / last.low) else mkNum 1
      let co : PyVal := if 0 < last.open_price then mkNum (last.close / last.open_price) else mkNum 1
      [("price_change_1", pc1), ("price_change_5", pc5),
       ("high_low_ratio", hl), ("close_open_ratio", co)]

/-- One cross signal of `create_trend_features`: `1 if a > b else -1` when both
inputs are truthy, 0 otherwise.  The comparison raises `TypeError` when the
truthy inputs are not comparable (e.g. a string and a number). -/
def crossSignal (a b : PyVal) : Except PyErr PyVal :=
  if a.truthy && b.truthy then
    match a.gtE b with
    | .error e => .error e
    | .ok true => .ok (mkNum 1)
    | .ok false => .ok (mkNum (-1))
  else .ok (mkNum 0)

/-- Body of `FeatureEngineer.create_trend_features` (inside its `try`). -/
def create_trend_features_body (indicators : PyDict) : Except PyErr (List (String × PyVal)) :=
  match crossSignal (dictGetRaw indicators "ema_20") (dictGetRaw indicators "ema_50") with
  | .error e => .error e
  | .ok c1 =>
  match crossSignal (dictGetRaw indicators "ema_50") (dictGetRaw indicators "ema_200") with
  | .error e => .error e
  | .ok c2 =>
  match crossSignal (dictGetRaw indicators "macd") (dictGetRaw indicators "macd_signal") with
  | .error e => .error e
  | .ok c3 =>
  let pa : PyVal := if (dictGetRaw indicators "ema_20").truthy then mkNum 1 else mkNum 0
  .ok [("ema_20_50_cross", c1), ("ema_50_200_cross", c2),
       ("macd_signal_cross", c3), ("price_above_ema20", pa)]

/-- `FeatureEngineer.create_trend_features`: the body with its catch-all
`except` returning `{}`. -/
def create_trend_features (indicators : PyDict) : List (String × PyVal) :=
  match create_trend_features_body indicators with
  | .ok fs => fs
  | .error _ => []

/-- Least-squares slope of `np.polyfit(range(5), volumes, 1)` over the last 5
volumes: with x-mean 2 and `Σ(x-2)² = 10`, the slope is `Σ(i-2)·vᵢ / 10`. -/
def volumeTrendSlope (v0 v1 v2 v3 v4 : ℚ) : ℚ :=
  ((-2) * v0 + (-1) * v1 + 0 * v2 + 1 * v3 + 2 * v4) / 10

/-- `FeatureEngineer.create_volume_features`: volume-ratio pass-through, 1-bar
volume change (guarded against a zero denominator), 5-bar volume slope. -/
def create_volume_features (candles : List Candle) (indicators : PyDict) :
    List (String × PyVal) :=
  let n := candles.length
  let vr := dictGet indicators "volume_ratio" (mkNum 0)
  let vc : PyVal :=
    if 2 ≤ n then
      if 0 < volumeFromEnd candles 2 then
        mkNum ((volumeFromEnd candles 1 - volumeFromEnd candles 2) / volumeFromEnd candles 2 * 100)
      else mkNum 0
    else mkNum 0
  let vt : PyVal :=
    if 5 ≤ n then
      mkNum (volumeTrendSlope (volumeFromEnd candles 5) (volumeFromEnd candles 4)
        (volumeFromEnd candles 3) (volumeFromEnd candles 2) (volumeFromEnd candles 1))
    else mkNum 0
  [("volume_ratio", vr), ("volume_change_1", vc), ("volume_trend_5", vt)]

/-- `FeatureEngineer.create_volatility_features`. -/
def create_volatility_features (indicators : PyDict) : List (String × PyVal) :=
  [("bb_width", dictGet indicators "bb_width" (mkNum 0)),
   ("atr", dictGet indicators "atr" (mkNum 0))]

/-- `FeatureEngineer.create_momentum_features`. -/
def create_momentum_features (indicators : PyDict) : List (String × PyVal) :=
  [("rsi_14", dictGet indicators "rsi_14" (mkNum 50)),
   ("rsi_7", dictGet indicators "rsi_7" (mkNum 50)),
   ("macd_histogram", dictGet indicators "macd_histogram" (mkNum 0)),
   ("stoch_k", dictGet indicators "stoch_k" (mkNum 50)),
   ("stoch_d", dictGet indicators "stoch_d" (mkNum 50)),
   ("adx", dictGet indicators "adx" (mkNum 0)),
   ("cci", dictGet indicators "cci" (mkNum 0))]

/-- Market-context features of `create_all_features`: defaults 50/50/`unknown`,
regime encoded bull=+1, bear=-1, other=0 (`==` never raises). -/
def contextFeatures (market_context : Option PyDict) : List (String × PyVal) :=
  match market_context with
  | some ctx =>
      let regime := dictGet ctx "market_regime" (.str "unknown")
      [("btc_dominance", dictGet ctx "btc_dominance" (mkNum 50)),
       ("fear_greed_index", dictGet ctx "fear_greed_index" (mkNum 50)),
       ("market_regime_encoded",
         if regime.eqB (.str "bull") then mkNum 1
         else if regime.eqB (.str "bear") then mkNum (-1) else mkNum 0)]
  | Option.none =>
      [("btc_dominance", mkNum 50), ("fear_greed_index", mkNum 50),
       ("market_regime_encoded", mkNum 0)]

/-- The final coercion loop of `create_all_features`: `None` → 0.0, `int`/
`float` (including `nan` and the infinities, which are `float` instances!)
kept, anything else → 0.0. -/
def coerceToFloat : PyVal → PyVal
  | .none => mkNum 0
  | .num x => .num x
  | .str _ => mkNum 0

/-- `FeatureEngineer.create_all_features`: concatenation of the feature groups
(their key sets are disjoint, so `dict.update` is list concatenation),
followed by the float-coercion loop.  No step of the body can raise — every
sub-builder catches its own failures — so the surrounding `try` is dead. -/
def create_all_features (candles : List Candle) (indicators : PyDict)
    (market_context : Option PyDict) : List (String × PyVal) :=
  (create_price_features candles ++ create_trend_features indicators ++
   create_volume_features candles indicators ++ create_volatility_features indicators ++
   create_momentum_features indicators ++ contextFeatures market_context).map
    (fun kv => (kv.1, coerceToFloat kv.2))

end FeatureEngineer

/-! ## MLPredictor (`app/ml/predictor.py`)

The classifier capability (`self.model` / `self.scaler`, loaded from disk) is
external to the core: it is modelled as an optional abstract capability whose
operations may fail.  `None` means no model could be loaded (the expected
state triggering the rule-based fallback). -/

/-- Abstract classifier capability: `predict` yields a class label,
`predict_proba` a probability row; an optional scaler transforms the feature
row first.  Any of these may raise. -/
structure ClassifierCap where
  predictFn : List PyVal → Except PyErr ℤ
  predictProbaFn : List PyVal → Except PyErr (List ℚ)
  scalerFn : Option (List PyVal → Except PyErr (List PyVal))

namespace MLPredictor

/-- Result dictionary of a prediction (`type`, `confidence`, `stop_loss`,
`take_profit`, `model_version`; the `features_used` attribution entry is
write-only logging payload and is not modelled). -/
structure PredResult where
  ptype : String
  confidence : ℚ
  stop_loss : Option PyFloat
  take_profit : Option PyFloat
  model_version : String
  deriving DecidableEq, Repr

/-- `MLPredictor._convert_prediction_to_type`. -/
def convert_prediction_to_type (prediction : ℤ) : String :=
  if prediction = 1 then "LONG" else if prediction = -1 then "SHORT" else "NEUTRAL"

/-- `MLPredictor._calculate_levels`: ATR-based stop loss and take profit, both
rounded to two decimals on return.  `multiplier = 1.5`, `risk_reward = 1.5`. -/
def calculate_levels (current_price : PyFloat) (pred_type : String) (atr : PyFloat) :
    PyFloat × PyFloat :=
  let multiplier : PyFloat := .fin (3/2)
  let risk_reward : PyFloat := .fin (3/2)
  if pred_type = "LONG" then
    let stop_loss := current_price.sub (atr.mul multiplier)
    let distance := current_price.sub stop_loss
    let take_profit := current_price.add (distance.mul risk_reward)
    (stop_loss.round2, take_profit.round2)
  else if pred_type = "SHORT" then
    let stop_loss := current_price.add (atr.mul multiplier)
    let distance := stop_loss.sub current_price
    let take_profit := current_price.sub (distance.mul risk_reward)
    (stop_loss.round2, take_profit.round2)
  else
    ((current_price.sub (atr.mul multiplier)).round2,
     (current_price.add (atr.mul multiplier)).round2)

/-- The RSI contribution of `_predict_with_rules`:
`if rsi < 30: +2 elif rsi > 70: -2`.  Raises when `rsi` is not a number. -/
def rsiContrib (rsi : PyVal) : Except PyErr ℤ :=
  match rsi.ltE (mkNum 30) with
  | .error e => .error e
  | .ok true => .ok 2
  | .ok false =>
      match rsi.gtE (mkNum 70) with
      | .error e => .error e
      | .ok true => .ok (-2)
      | .ok false => .ok 0

/-- The MACD / EMA contribution of `_predict_with_rules`:
`if a > b: +1 elif a < b: -1`. -/
def cmpContrib (a b : PyVal) : Except PyErr ℤ :=
  match a.gtE b with
  | .error e => .error e
  | .ok true => .ok 1
  | .ok false =>
      match a.ltE b with
      | .error e => .error e
      | .ok true => .ok (-1)
      | .ok false => .ok 0

/-- Truthiness of the `current_price` argument (a float or `None`). -/
def optTruthy (cp : Option ℚ) : Bool :=
  match cp with
  | some x => decide (x ≠ 0)
  | Option.none => false

/-- `self._calculate_levels(current_price, pred_type, atr)` with the raw `atr`
dictionary value: arithmetic on a non-numeric ATR raises `TypeError`. -/
def calcLevelsOfVal (cp : ℚ) (pred_type : String) (atr : PyVal) :
    Except PyErr (PyFloat × PyFloat) :=
  match atr with
  | .num x => .ok (calculate_levels (.fin cp) pred_type x)
  | _ => .error .typeError

/-- Body (inside the `try`) of `MLPredictor._predict_with_rules`.  The local
variables `rsi`, `macd`, … of the source are inlined as their `dict.get`
lookups. -/
def predict_with_rules_body (indicators : PyDict) (current_price : Option ℚ) :
    Except PyErr PredResult :=
  match rsiContrib (dictGet indicators "rsi_14" (mkNum 50)) with
  | .error e => .error e
  | .ok c1 =>
  match cmpContrib (dictGet indicators "macd" (mkNum 0))
      (dictGet indicators "macd_signal" (mkNum 0)) with
  | .error e => .error e
  | .ok c2 =>
  match cmpContrib (dictGet indicators "ema_20" (mkNum 0))
      (dictGet indicators "ema_50" (mkNum 0)) with
  | .error e => .error e
  | .ok c3 =>
  let score := c1 + c2 + c3
  let tc : String × ℚ :=
    if 2 ≤ score then ("LONG", ((min (60 + score * 5) 75 : ℤ) : ℚ))
    else if score ≤ -2 then ("SHORT", ((min (60 + |score| * 5) 75 : ℤ) : ℚ))
    else ("NEUTRAL", 50)
  match (if optTruthy current_price && (dictGet indicators "atr" (mkNum 0)).truthy then
           (calcLevelsOfVal (current_price.getD 0) tc.1
             (dictGet indicators "atr" (mkNum 0))).map
             (fun p => (some p.1, some p.2))
         else .ok (Option.none, Option.none)) with
  | .error e => .error e
  | .ok (sl, tp) =>
      .ok { ptype := tc.1, confidence := tc.2, stop_loss := sl,
            take_profit := tp, model_version := "rules-based" }

/-- `MLPredictor._predict_with_rules`: the body with its catch-all `except`
returning `None`.  The `Except` result type records that the function itself
returns normally (never re-raises). -/
def predict_with_rules (indicators : PyDict) (current_price : Option ℚ) :
    Except PyErr (Option PredResult) :=
  match predict_with_rules_body indicators current_price with
  | .ok r => .ok (some r)
  | .error _ => .ok Option.none

/-- `max(probabilities)`: `ValueError` on an empty sequence. -/
def pyMax (l : List ℚ) : Except PyErr ℚ :=
  match l with
  | [] => .error .valueError
  | x :: xs => .ok (xs.foldl max x)

/-- Body (inside the `try`) of `MLPredictor.predict`.  With no classifier
capability, `load_model` fails and the body returns the rule-based result
directly (line 75–79); otherwise features are built, scored, and levels
computed, any of which may raise. -/
def predict_body (model : Option ClassifierCap) (candles : List Candle)
    (indicators : PyDict) (market_context : Option PyDict)
    (current_price : Option ℚ) : Except PyErr (Option PredResult) :=
  match model with
  | Option.none => predict_with_rules indicators current_price
  | some cap =>
      let features := FeatureEngineer.create_all_features candles indicators market_context
      if features.isEmpty then .ok Option.none
      else
        let X := features.map (fun kv => kv.2)
        match (match cap.scalerFn with
               | some f => f X
               | Option.none => .ok X) with
        | .error e => .error e
        | .ok X' =>
        match cap.predictFn X' with
        | .error e => .error e
        | .ok label =>
        match cap.predictProbaFn X' with
        | .error e => .error e
        | .ok probs =>
        match pyMax probs with
        | .error e => .error e
        | .ok maxp =>
        let pred_type := convert_prediction_to_type label
        let confidence := maxp * 100
        let atr := dictGet indicators "atr" (mkNum 0)
        match (if optTruthy current_price && atr.truthy then
                 (calcLevelsOfVal (current_price.getD 0) pred_type atr).map
                   (fun p => (some p.1, some p.2))
               else .ok (Option.none, Option.none)) with
        | .error e => .error e
        | .ok (sl, tp) =>
            .ok (some { ptype := pred_type, confidence := confidence,
                        stop_loss := sl, take_profit := tp,
                        model_version := "1.0" })

/-- `MLPredictor.predict`: the body with its catch-all `except` falling back
to `_predict_with_rules` (line 125–128). -/
def predict (model : Option ClassifierCap) (candles : List Candle)
    (indicators : PyDict) (market_context : Option PyDict)
    (current_price : Option ℚ) : Except PyErr (Option PredResult) :=
  match predict_body model candles indicators market_context current_price with
  | .ok v => .ok v
  | .error _ => predict_with_rules indicators current_price

end MLPredictor

/-! ## PredictionService (`app/services/prediction_service.py`)

The confidence gate, priority tiering, and the stop-loss / take-profit
percentage and risk/reward derivation of `generate_prediction`
(lines 94–134). -/

/-- `PredictionPriorityEnum`. -/
inductive Priority
  | critical
  | high
  | medium
  | low
  deriving DecidableEq, Repr

namespace PredictionService

/-- `settings.MIN_CONFIDENCE_THRESHOLD` (`app/config.py`). -/
def MIN_CONFIDENCE_THRESHOLD : ℚ := 70

/-- Priority tiering of `generate_prediction` (lines 126–134): fixed 85/75/70
cut-offs. -/
def priorityFor (confidence : ℚ) : Priority :=
  if 85 ≤ confidence then .critical
  else if 75 ≤ confidence then .high
  else if 70 ≤ confidence then .medium
  else .low

/-- The confidence gate (lines 94–100 and 126–134): `None` (discard, no signal
row is created) when the confidence is below the threshold, otherwise the
priority tier of the emitted signal. -/
def gate (confidence threshold : ℚ) : Option Priority :=
  if confidence < threshold then Option.none else some (priorityFor confidence)

/-- Truthiness of the `stop_loss` / `take_profit` variables (float or `None`). -/
def optPfTruthy : Option PyFloat → Bool
  | some x => x.truthy
  | Option.none => false

/-- Lines 123–124: `if stop_loss_pct and take_profit_pct and stop_loss_pct > 0:
risk_reward = take_profit_pct / stop_loss_pct`.  The truthiness check rules
out a zero denominator, so the division cannot raise. -/
def riskRewardOf (slPct tpPct : Option PyFloat) : Option PyFloat :=
  match slPct, tpPct with
  | some a, some b =>
      if a.truthy && b.truthy && PyFloat.lt (.fin 0) a then some (b.div a)
      else Option.none
  | _, _ => Option.none

/-- Lines 106–124 of `generate_prediction`: percentage distances and
risk/reward ratio.  `entry_price` is a Python float, so the divisions raise
`ZeroDivisionError` when it is zero (caught by the function's outer `except`,
which discards the prediction). -/
def computeRiskPcts (entry : ℚ) (ptype : String) (sl tp : Option PyFloat) :
    Except PyErr (Option PyFloat × Option PyFloat × Option PyFloat) :=
  if optPfTruthy sl && optPfTruthy tp then
    let slv := sl.getD (.fin 0)
    let tpv := tp.getD (.fin 0)
    if ptype = "LONG" then
      match PyFloat.divE ((PyFloat.fin entry).sub slv) (.fin entry) with
      | .error e => .error e
      | .ok a =>
      match PyFloat.divE (tpv.sub (.fin entry)) (.fin entry) with
      | .error e => .error e
      | .ok b =>
          let slPct := a.mul (.fin 100)
          let tpPct := b.mul (.fin 100)
          .ok (some slPct, some tpPct, riskRewardOf (some slPct) (some tpPct))
    else if ptype = "SHORT" then
      match PyFloat.divE (slv.sub (.fin entry)) (.fin entry) with
      | .error e => .error e
      | .ok a =>
      match PyFloat.divE ((PyFloat.fin entry).sub tpv) (.fin entry) with
      | .error e => .error e
      | .ok b =>
          let slPct := a.mul (.fin 100)
          let tpPct := b.mul (.fin 100)
          .ok (some slPct, some tpPct, riskRewardOf (some slPct) (some tpPct))
    else .ok (Option.none, Option.none, Option.none)
  else .ok (Option.none, Option.none, Option.none)

end PredictionService

/-! ## Claims -/

/-- **C4**: a candidate is emitted only when its confidence reaches the
configured minimum threshold (default 70); a candidate with confidence 65 is
discarded; every emitted signal's priority is CRITICAL (≥85), HIGH (≥75) or
MEDIUM (≥70) — the LOW tier is unreachable under the default threshold. -/
theorem c4_gate_threshold_and_priority :
    (∀ c : ℚ, PredictionService.gate c PredictionService.MIN_CONFIDENCE_THRESHOLD =
      (if 70 ≤ c then
        some (if 85 ≤ c then Priority.critical
          else if 75 ≤ c then Priority.high else Priority.medium)
       else Option.none)) ∧
    PredictionService.gate 65 PredictionService.MIN_CONFIDENCE_THRESHOLD = Option.none := by
  constructor
  · intro c
    unfold PredictionService.gate PredictionService.priorityFor
      PredictionService.MIN_CONFIDENCE_THRESHOLD
    split_ifs <;> first | rfl | linarith
  · unfold PredictionService.gate PredictionService.MIN_CONFIDENCE_THRESHOLD
    norm_num

/-- **C3** (counterexample): the claim also asserts `stop < entry < target`
for every positive entry and ATR, but with `entry = 100` and
`ATR = 1/512 ≈ 0.00195` both rounded levels collapse onto the entry price
(`1.5·ATR < 0.005`), so neither strict inequality holds. -/
theorem c3_ordering_counterexample :
    (0:ℚ) < 100 ∧ (0:ℚ) < 1/512 ∧
    MLPredictor.calculate_levels (.fin 100) "LONG" (.fin (1/512)) = (.fin 100, .fin 100) ∧
    PyFloat.lt (MLPredictor.calculate_levels (.fin 100) "LONG" (.fin (1/512))).1
      (.fin 100) = false := by
  refine ⟨by norm_num, by norm_num, ?_, ?_⟩ <;>
    · simp [MLPredictor.calculate_levels, PyFloat.sub, PyFloat.add, PyFloat.neg, PyFloat.mul,
        PyFloat.round2, PyFloat.lt, roundTo2, rhe_eq]
      norm_num [Int.fract]

/-- **C3** (amended): for every entry price > 0 and ATR > 0 the calculator
returns, for LONG, `stop = round(entry − ATR·1.5, 2)` and
`target = round(entry + (entry − stop_raw)·1.5, 2)` (and symmetrically for
SHORT); the strict ordering `stop < entry < target` (resp.
`target < entry < stop`) additionally holds whenever `ATR ≥ 0.01`, so that the
half-cent rounding slack cannot swallow the ATR distance. -/
theorem c3_levels_formula_and_ordering :
    ∀ e atr : ℚ, 0 < e → 0 < atr →
      (MLPredictor.calculate_levels (.fin e) "LONG" (.fin atr) =
        (.fin (roundTo2 (e - atr * (3/2))), .fin (roundTo2 (e + atr * (3/2) * (3/2))))) ∧
      (MLPredictor.calculate_levels (.fin e) "SHORT" (.fin atr) =
        (.fin (roundTo2 (e + atr * (3/2))), .fin (roundTo2 (e - atr * (3/2) * (3/2))))) ∧
      (1/100 ≤ atr →
        roundTo2 (e - atr * (3/2)) < e ∧ e < roundTo2 (e + atr * (3/2) * (3/2)) ∧
        roundTo2 (e - atr * (3/2) * (3/2)) < e ∧ e < roundTo2 (e + atr * (3/2))) := by
  intro e atr _ hatr
  refine ⟨?_, ?_, ?_⟩
  · simp [MLPredictor.calculate_levels, PyFloat.sub, PyFloat.add, PyFloat.neg, PyFloat.mul,
      PyFloat.round2]
    ring_nf
  · simp [MLPredictor.calculate_levels, PyFloat.sub, PyFloat.add, PyFloat.neg, PyFloat.mul,
      PyFloat.round2]
    ring_nf
  · intro h
    have b1 := roundTo2_bounds (e - atr * (3/2))
    have b2 := roundTo2_bounds (e + atr * (3/2) * (3/2))
    have b3 := roundTo2_bounds (e - atr * (3/2) * (3/2))
    have b4 := roundTo2_bounds (e + atr * (3/2))
    refine ⟨?_, ?_, ?_, ?_⟩ <;> linarith [b1.1, b1.2, b2.1, b2.2, b3.1, b3.2, b4.1, b4.2]

/-- **C3** (witness): the amended theorem instantiated at entry 100, ATR 2. -/
theorem c3_levels_witness :
    (0:ℚ) < 100 ∧ (0:ℚ) < 2 ∧
    (MLPredictor.calculate_levels (.fin 100) "LONG" (.fin 2) =
      (.fin (roundTo2 (100 - 2 * (3/2))), .fin (roundTo2 (100 + 2 * (3/2) * (3/2))))) ∧
    ((1:ℚ)/100 ≤ 2 → roundTo2 (100 - 2 * (3/2)) < 100 ∧
      (100:ℚ) < roundTo2 (100 + 2 * (3/2) * (3/2)) ∧
      roundTo2 (100 - 2 * (3/2) * (3/2)) < 100 ∧ (100:ℚ) < roundTo2 (100 + 2 * (3/2))) :=
  ⟨by norm_num, by norm_num,
    (c3_levels_formula_and_ordering 100 2 (by norm_num) (by norm_num)).1,
    (c3_levels_formula_and_ordering 100 2 (by norm_num) (by norm_num)).2.2⟩

/-- Auxiliary: a ratio whose numerator is within 1/80 of 3/2 times the
positive denominator is within `1/(80·d)` of 3/2. -/
theorem ratioBoundAux (y d : ℚ) (hd : 0 < d) (hkey : |y - 3/2 * d| ≤ 1/80) :
    |y / d - 3/2| ≤ 1 / (80 * d) := by
  have hsplit : y / d - 3/2 = (y - 3/2 * d) / d := by
    rw [div_sub' _ _ _ hd.ne']
    congr 1
    ring
  rw [hsplit, abs_div, abs_of_pos hd, show (1:ℚ) / (80 * d) = 1/80 / d from
    (div_div 1 80 d).symm]
  exact (div_le_div_iff_of_pos_right hd).mpr hkey

/-- **C5**: for an emitted LONG or SHORT signal whose levels come from the
ATR calculator and whose stop-loss percentage is positive, the risk/reward
ratio `take-profit% / stop-loss%` equals 1.5 up to the tolerance induced by
the half-cent rounding of the two price levels (at most `1/80` of price,
i.e. `1/(80·(entry − stop))` of the ratio); and whenever the stop-loss
percentage is not positive, the stored risk/reward ratio is `None`. -/
theorem c5_risk_reward_ratio :
    (∀ e atr a b rr, 0 < e → 0 < atr →
      PredictionService.computeRiskPcts e "LONG"
        (some (MLPredictor.calculate_levels (.fin e) "LONG" (.fin atr)).1)
        (some (MLPredictor.calculate_levels (.fin e) "LONG" (.fin atr)).2) =
        .ok (some (.fin a), some (.fin b), rr) →
      0 < a →
      |b / a - 3/2| ≤ 1 / (80 * (e - roundTo2 (e - atr * (3/2))))) ∧
    (∀ e atr a b rr, 0 < e → 0 < atr →
      PredictionService.computeRiskPcts e "SHORT"
        (some (MLPredictor.calculate_levels (.fin e) "SHORT" (.fin atr)).1)
        (some (MLPredictor.calculate_levels (.fin e) "SHORT" (.fin atr)).2) =
        .ok (some (.fin a), some (.fin b), rr) →
      0 < a →
      |b / a - 3/2| ≤ 1 / (80 * (roundTo2 (e + atr * (3/2)) - e))) ∧
    (∀ (q : ℚ) (b : Option PyFloat), q ≤ 0 →
      PredictionService.riskRewardOf (some (.fin q)) b = Option.none) := by
  refine ⟨?_, ?_, ?_⟩
  · intro e atr a b rr he hatr hcomp ha
    have hlev := (c3_levels_formula_and_ordering e atr he hatr).1
    set s := roundTo2 (e - atr * (3/2)) with hs_def
    set t := roundTo2 (e + atr * (3/2) * (3/2)) with ht_def
    rw [hlev] at hcomp
    by_cases hs0 : s = 0
    · simp [PredictionService.computeRiskPcts, PredictionService.optPfTruthy,
        PyFloat.truthy, hs0] at hcomp
    · by_cases ht0 : t = 0
      · simp [PredictionService.computeRiskPcts, PredictionService.optPfTruthy,
          PyFloat.truthy, hs0, ht0] at hcomp
      · simp [PredictionService.computeRiskPcts, PredictionService.optPfTruthy,
          PyFloat.truthy, hs0, ht0, PyFloat.divE, PyFloat.div, PyFloat.sub, PyFloat.add,
          PyFloat.neg, PyFloat.mul, he.ne'] at hcomp
        obtain ⟨ha', hb', -⟩ := hcomp
        subst ha' hb'
        have hbs := roundTo2_bounds (e - atr * (3/2))
        have hbt := roundTo2_bounds (e + atr * (3/2) * (3/2))
        rw [← hs_def] at hbs
        rw [← ht_def] at hbt
        have h100e : (0:ℚ) < 100 / e := by positivity
        have hrewa : (e + -s) / e * 100 = (e - s) * (100 / e) := by ring
        have hrewb : (t + -e) / e * 100 = (t - e) * (100 / e) := by ring
        rw [hrewa] at ha
        have hd : 0 < e - s := by
          by_contra hcon
          push_neg at hcon
          have := mul_nonpos_of_nonpos_of_nonneg hcon h100e.le
          linarith
        have hba : (t + -e) / e * 100 / ((e + -s) / e * 100) = (t - e) / (e - s) := by
          rw [hrewa, hrewb, mul_div_mul_right _ _ h100e.ne']
        rw [hba]
        refine ratioBoundAux _ _ hd ?_
        rw [abs_le]
        constructor <;> linarith [hbs.1, hbs.2, hbt.1, hbt.2]
  · intro e atr a b rr he hatr hcomp ha
    have hlev := (c3_levels_formula_and_ordering e atr he hatr).2.1
    set s := roundTo2 (e + atr * (3/2)) with hs_def
    set t := roundTo2 (e - atr * (3/2) * (3/2)) with ht_def
    rw [hlev] at hcomp
    by_cases hs0 : s = 0
    · simp [PredictionService.computeRiskPcts, PredictionService.optPfTruthy,
        PyFloat.truthy, hs0] at hcomp
    · by_cases ht0 : t = 0
      · simp [PredictionService.computeRiskPcts, PredictionService.optPfTruthy,
          PyFloat.truthy, hs0, ht0] at hcomp
      · simp [PredictionService.computeRiskPcts, PredictionService.optPfTruthy,
          PyFloat.truthy, hs0, ht0, PyFloat.divE, PyFloat.div, PyFloat.sub, PyFloat.add,
          PyFloat.neg, PyFloat.mul, he.ne'] at hcomp
        obtain ⟨ha', hb', -⟩ := hcomp
        subst ha' hb'
        have hbs := roundTo2_bounds (e + atr * (3/2))
        have hbt := roundTo2_bounds (e - atr * (3/2) * (3/2))
        rw [← hs_def] at hbs
        rw [← ht_def] at hbt
        have h100e : (0:ℚ) < 100 / e := by positivity
        have hrewa : (s + -e) / e * 100 = (s - e) * (100 / e) := by ring
        have hrewb : (e + -t) / e * 100 = (e - t) * (100 / e) := by ring
        rw [hrewa] at ha
        have hd : 0 < s - e := by
          by_contra hcon
          push_neg at hcon
          have := mul_nonpos_of_nonpos_of_nonneg hcon h100e.le
          linarith
        have hba : (e + -t) / e * 100 / ((s + -e) / e * 100) = (e - t) / (s - e) := by
          rw [hrewa, hrewb, mul_div_mul_right _ _ h100e.ne']
        rw [hba]
        refine ratioBoundAux _ _ hd ?_
        rw [abs_le]
        constructor <;> linarith [hbs.1, hbs.2, hbt.1, hbt.2]
  · intro q b hq
    cases b with
    | none => rfl
    | some x =>
        simp [PredictionService.riskRewardOf, PyFloat.lt, not_lt.mpr hq]

/-- **C5** (witness): the ratio bound instantiated at entry 100, ATR 2
(levels 97 / 104.5, percentages 3% / 4.5%, ratio exactly 1.5), and the null
clause at stop-loss percentage −1. -/
theorem c5_risk_reward_witness :
    (0:ℚ) < 100 ∧ (0:ℚ) < 2 ∧
    PredictionService.computeRiskPcts 100 "LONG"
      (some (MLPredictor.calculate_levels (.fin 100) "LONG" (.fin 2)).1)
      (some (MLPredictor.calculate_levels (.fin 100) "LONG" (.fin 2)).2) =
      .ok (some (.fin 3), some (.fin (9/2)), some (.fin (3/2))) ∧
    (0:ℚ) < 3 ∧
    |(9/2 : ℚ) / 3 - 3/2| ≤ 1 / (80 * (100 - roundTo2 (100 - 2 * (3/2)))) ∧
    (-1:ℚ) ≤ 0 ∧
    PredictionService.riskRewardOf (some (.fin (-1))) (some (.fin 5)) = Option.none := by
  have hcomp : PredictionService.computeRiskPcts 100 "LONG"
      (some (MLPredictor.calculate_levels (.fin 100) "LONG" (.fin 2)).1)
      (some (MLPredictor.calculate_levels (.fin 100) "LONG" (.fin 2)).2) =
      .ok (some (.fin 3), some (.fin (9/2)), some (.fin (3/2))) := by
    have h : MLPredictor.calculate_levels (.fin 100) "LONG" (.fin 2) =
        (.fin 97, .fin (209/2)) := by
      simp [MLPredictor.calculate_levels, PyFloat.sub, PyFloat.add, PyFloat.neg, PyFloat.mul,
        PyFloat.round2, roundTo2, rhe_eq]
      norm_num [Int.fract]
    rw [h]
    simp [PredictionService.computeRiskPcts, PredictionService.optPfTruthy,
      PredictionService.riskRewardOf, PyFloat.truthy, PyFloat.divE, PyFloat.div, PyFloat.sub,
      PyFloat.add, PyFloat.neg, PyFloat.mul, PyFloat.lt]
    norm_num
  refine ⟨by norm_num, by norm_num, hcomp, by norm_num, ?_, by norm_num, ?_⟩
  · exact c5_risk_reward_ratio.1 100 2 3 (9/2) (some (.fin (3/2))) (by norm_num) (by norm_num)
      hcomp (by norm_num)
  · exact c5_risk_reward_ratio.2.2 (-1) (some (.fin 5)) (by norm_num)

/-- The RSI branch of `_predict_with_rules` on a numeric RSI value. -/
theorem rsiContrib_num (r : ℚ) :
    MLPredictor.rsiContrib (mkNum r) = .ok (if r < 30 then 2 else if 70 < r then -2 else 0) := by
  by_cases h1 : r < 30 <;> by_cases h2 : 70 < r <;>
    simp [MLPredictor.rsiContrib, PyVal.ltE, PyVal.gtE, PyFloat.lt, PyFloat.gt, mkNum, h1, h2]

/-- The MACD / EMA branch of `_predict_with_rules` on numeric values. -/
theorem cmpContrib_num (x y : ℚ) :
    MLPredictor.cmpContrib (mkNum x) (mkNum y) =
      .ok (if y < x then 1 else if x < y then -1 else 0) := by
  by_cases h1 : y < x <;> by_cases h2 : x < y <;>
    simp [MLPredictor.cmpContrib, PyVal.ltE, PyVal.gtE, PyFloat.lt, PyFloat.gt, mkNum, h1, h2]

/-- The level-computation step of `_predict_with_rules` cannot raise when the
ATR dictionary entry is numeric. -/
theorem levelsStep_ok (cp : Option ℚ) (t : String) (a : ℚ) :
    ∃ p : Option PyFloat × Option PyFloat,
      (if (MLPredictor.optTruthy cp && (mkNum a).truthy) = true then
         Except.map (fun q => (some q.1, some q.2))
           (MLPredictor.calcLevelsOfVal (cp.getD 0) t (mkNum a))
       else .ok (Option.none, Option.none)) = .ok p := by
  by_cases h : (MLPredictor.optTruthy cp && (mkNum a).truthy) = true
  · rw [if_pos h]
    exact ⟨_, rfl⟩
  · rw [if_neg h]
    exact ⟨_, rfl⟩

/-- `_predict_with_rules` never re-raises: its own `except` returns `None`. -/
theorem predict_with_rules_never_raises (ind : PyDict) (cp : Option ℚ) :
    ∃ v, MLPredictor.predict_with_rules ind cp = .ok v := by
  unfold MLPredictor.predict_with_rules
  cases MLPredictor.predict_with_rules_body ind cp <;> exact ⟨_, rfl⟩

/-- With no classifier capability, `predict` is exactly the rule-based path. -/
theorem predict_none_eq (candles : List Candle) (ctx : Option PyDict) (cp : Option ℚ)
    (ind : PyDict) :
    MLPredictor.predict Option.none candles ind ctx cp =
      MLPredictor.predict_with_rules ind cp := by
  obtain ⟨v, hv⟩ := predict_with_rules_never_raises ind cp
  simp [MLPredictor.predict, MLPredictor.predict_body, hv]

/-- The rule-based fallback on numeric (or absent, hence defaulted) indicator
entries: returns a prediction whose direction and confidence follow the
three-indicator point score. -/
theorem predict_with_rules_numeric (ind : PyDict) (cp : Option ℚ)
    (r m ms e20 e50 a : ℚ)
    (h1 : dictGet ind "rsi_14" (mkNum 50) = mkNum r)
    (h2 : dictGet ind "macd" (mkNum 0) = mkNum m)
    (h3 : dictGet ind "macd_signal" (mkNum 0) = mkNum ms)
    (h4 : dictGet ind "ema_20" (mkNum 0) = mkNum e20)
    (h5 : dictGet ind "ema_50" (mkNum 0) = mkNum e50)
    (h6 : dictGet ind "atr" (mkNum 0) = mkNum a) :
    ∃ res, MLPredictor.predict_with_rules ind cp = .ok (some res) ∧
      res.ptype = (if 2 ≤ (if r < 30 then 2 else if 70 < r then -2 else 0) +
          (if ms < m then 1 else if m < ms then -1 else 0) +
          (if e50 < e20 then 1 else if e20 < e50 then -1 else 0) then "LONG"
        else if (if r < 30 then 2 else if 70 < r then -2 else 0) +
          (if ms < m then 1 else if m < ms then -1 else 0) +
          (if e50 < e20 then 1 else if e20 < e50 then -1 else 0) ≤ -2 then "SHORT"
        else "NEUTRAL") ∧
      res.confidence = (if (2 ≤ (if r < 30 then 2 else if 70 < r then -2 else 0) +
          (if ms < m then 1 else if m < ms then -1 else 0) +
          (if e50 < e20 then 1 else if e20 < e50 then -1 else 0)) ∨
          ((if r < 30 then 2 else if 70 < r then -2 else 0) +
          (if ms < m then 1 else if m < ms then -1 else 0) +
          (if e50 < e20 then 1 else if e20 < e50 then -1 else 0) ≤ -2) then
          ((min (60 + |(if r < 30 then 2 else if 70 < r then -2 else 0) +
            (if ms < m then 1 else if m < ms then -1 else 0) +
            (if e50 < e20 then 1 else if e20 < e50 then -1 else 0)| * 5) 75 : ℤ) : ℚ)
        else 50) := by
  unfold MLPredictor.predict_with_rules MLPredictor.predict_with_rules_body
  rw [h1, h2, h3, h4, h5, h6]
  simp only [rsiContrib_num, cmpContrib_num]
  set score : ℤ := (if r < 30 then 2 else if 70 < r then -2 else 0) +
      (if ms < m then 1 else if m < ms then -1 else 0) +
      (if e50 < e20 then 1 else if e20 < e50 then -1 else 0) with hscore
  obtain ⟨p, hp⟩ := levelsStep_ok cp
    (if 2 ≤ score then "LONG" else if score ≤ -2 then "SHORT" else "NEUTRAL") a
  by_cases hA : 2 ≤ score
  · simp only [if_pos hA] at hp ⊢
    rw [hp]
    refine ⟨_, rfl, by simp, ?_⟩
    simp [hA, abs_of_nonneg (by linarith : (0:ℤ) ≤ score)]
  · by_cases hB : score ≤ -2
    · simp only [if_neg hA, if_pos hB] at hp ⊢
      rw [hp]
      refine ⟨_, rfl, by simp, ?_⟩
      simp [hA, hB]
    · simp only [if_neg hA, if_neg hB] at hp ⊢
      rw [hp]
      refine ⟨_, rfl, by simp, ?_⟩
      simp [hA, hB]

/-- **C1**: with no classifier capability, for every indicator mapping whose
relevant entries are numeric (or absent, hence defaulted), the rule-based
fallback scores RSI (+2 below 30 / −2 above 70), MACD vs signal (±1) and
EMA20 vs EMA50 (±1), emits LONG when the score is ≥ 2, SHORT when ≤ −2, else
NEUTRAL, with confidence `min(60 + 5·|score|, 75)` for non-neutral directions
and 50 for NEUTRAL. -/
theorem c1_rule_fallback_score :
    ∀ (candles : List Candle) (ctx : Option PyDict) (cp : Option ℚ) (ind : PyDict)
      (r m ms e20 e50 a : ℚ),
      dictGet ind "rsi_14" (mkNum 50) = mkNum r →
      dictGet ind "macd" (mkNum 0) = mkNum m →
      dictGet ind "macd_signal" (mkNum 0) = mkNum ms →
      dictGet ind "ema_20" (mkNum 0) = mkNum e20 →
      dictGet ind "ema_50" (mkNum 0) = mkNum e50 →
      dictGet ind "atr" (mkNum 0) = mkNum a →
      ∃ res, MLPredictor.predict Option.none candles ind ctx cp = .ok (some res) ∧
        res.ptype = (if 2 ≤ (if r < 30 then 2 else if 70 < r then -2 else 0) +
            (if ms < m then 1 else if m < ms then -1 else 0) +
            (if e50 < e20 then 1 else if e20 < e50 then -1 else 0) then "LONG"
          else if (if r < 30 then 2 else if 70 < r then -2 else 0) +
            (if ms < m then 1 else if m < ms then -1 else 0) +
            (if e50 < e20 then 1 else if e20 < e50 then -1 else 0) ≤ -2 then "SHORT"
          else "NEUTRAL") ∧
        res.confidence = (if (2 ≤ (if r < 30 then 2 else if 70 < r then -2 else 0) +
            (if ms < m then 1 else if m < ms then -1 else 0) +
            (if e50 < e20 then 1 else if e20 < e50 then -1 else 0)) ∨
            ((if r < 30 then 2 else if 70 < r then -2 else 0) +
            (if ms < m then 1 else if m < ms then -1 else 0) +
            (if e50 < e20 then 1 else if e20 < e50 then -1 else 0) ≤ -2) then
            ((min (60 + |(if r < 30 then 2 else if 70 < r then -2 else 0) +
              (if ms < m then 1 else if m < ms then -1 else 0) +
              (if e50 < e20 then 1 else if e20 < e50 then -1 else 0)| * 5) 75 : ℤ) : ℚ)
          else 50) := by
  intro candles ctx cp ind r m ms e20 e50 a h1 h2 h3 h4 h5 h6
  rw [predict_none_eq]
  exact predict_with_rules_numeric ind cp r m ms e20 e50 a h1 h2 h3 h4 h5 h6

/-- **C1** (witness): the spec's concrete instance — RSI 25, MACD 1.2 vs
signal 0.5, EMA20 105 vs EMA50 100 — yields direction LONG with
confidence 75. -/
theorem c1_rule_fallback_score_witness :
    dictGet [("rsi_14", mkNum 25), ("macd", mkNum (6/5)), ("macd_signal", mkNum (1/2)),
        ("ema_20", mkNum 105), ("ema_50", mkNum 100)] "rsi_14" (mkNum 50) = mkNum 25 ∧
    ∃ res, MLPredictor.predict Option.none []
        [("rsi_14", mkNum 25), ("macd", mkNum (6/5)), ("macd_signal", mkNum (1/2)),
         ("ema_20", mkNum 105), ("ema_50", mkNum 100)] Option.none Option.none =
        .ok (some res) ∧ res.ptype = "LONG" ∧ res.confidence = 75 := by
  refine ⟨rfl, ?_⟩
  obtain ⟨res, hres, hty, hconf⟩ := c1_rule_fallback_score []
    Option.none Option.none
    [("rsi_14", mkNum 25), ("macd", mkNum (6/5)), ("macd_signal", mkNum (1/2)),
     ("ema_20", mkNum 105), ("ema_50", mkNum 100)] 25 (6/5) (1/2) 105 100 0
    rfl rfl rfl rfl rfl rfl
  norm_num at hty hconf
  exact ⟨res, hres, hty, hconf⟩

/-- **C2**: `predict` never surfaces an exception: for every input it returns
normally, and its value is either the normal-path result or the rule-based
fallback's result (which is itself a prediction or `None`). -/
theorem c2_predict_never_raises :
    ∀ (model : Option ClassifierCap) (candles : List Candle) (ind : PyDict)
      (ctx : Option PyDict) (cp : Option ℚ),
      ∃ v, MLPredictor.predict model candles ind ctx cp = .ok v ∧
        (MLPredictor.predict_body model candles ind ctx cp = .ok v ∨
         MLPredictor.predict model candles ind ctx cp =
           MLPredictor.predict_with_rules ind cp) := by
  intro model candles ind ctx cp
  unfold MLPredictor.predict
  cases hb : MLPredictor.predict_body model candles ind ctx cp with
  | ok v => exact ⟨v, rfl, Or.inl rfl⟩
  | error e =>
      obtain ⟨v, hv⟩ := predict_with_rules_never_raises ind cp
      exact ⟨v, hv, Or.inr rfl⟩

/-- Comparing Python `None` with a number raises `TypeError` (RSI branch). -/
theorem rsiContrib_null : MLPredictor.rsiContrib PyVal.none = .error .typeError := rfl

/-- A `None` left operand of `>` raises `TypeError`. -/
theorem cmpContrib_null_left (b : PyVal) :
    MLPredictor.cmpContrib PyVal.none b = .error .typeError := rfl

/-- A `None` right operand of `>` raises `TypeError`. -/
theorem cmpContrib_null_right (a : PyVal) :
    MLPredictor.cmpContrib a PyVal.none = .error .typeError := by
  cases a <;> rfl

/-- **C9**: when any of the five scoring keys is present but maps to `None`
(as happens for every indicator whose window was too short), the `None`
bypasses the lookup default, the ordering comparison raises `TypeError`, and
the fallback's catch-all returns no signal at all — both for
`_predict_with_rules` itself and for the whole classifier-less `predict`. -/
theorem c9_null_indicator_no_signal :
    ∀ (ind : PyDict) (cp : Option ℚ) (candles : List Candle) (ctx : Option PyDict),
      (ind.lookup "rsi_14" = some PyVal.none ∨ ind.lookup "macd" = some PyVal.none ∨
       ind.lookup "macd_signal" = some PyVal.none ∨ ind.lookup "ema_20" = some PyVal.none ∨
       ind.lookup "ema_50" = some PyVal.none) →
      MLPredictor.predict_with_rules ind cp = .ok Option.none ∧
      MLPredictor.predict Option.none candles ind ctx cp = .ok Option.none := by
  intro ind cp candles ctx hdisj
  have hbody : ∃ e, MLPredictor.predict_with_rules_body ind cp = .error e := by
    unfold MLPredictor.predict_with_rules_body
    rcases hdisj with h | h | h | h | h
    · rw [show dictGet ind "rsi_14" (mkNum 50) = PyVal.none from by simp [dictGet, h],
        rsiContrib_null]
      exact ⟨_, rfl⟩
    · cases hr : MLPredictor.rsiContrib (dictGet ind "rsi_14" (mkNum 50)) with
      | error e => exact ⟨e, rfl⟩
      | ok c1 =>
          rw [show dictGet ind "macd" (mkNum 0) = PyVal.none from by simp [dictGet, h],
            cmpContrib_null_left]
          exact ⟨_, rfl⟩
    · cases hr : MLPredictor.rsiContrib (dictGet ind "rsi_14" (mkNum 50)) with
      | error e => exact ⟨e, rfl⟩
      | ok c1 =>
          rw [show dictGet ind "macd_signal" (mkNum 0) = PyVal.none from by simp [dictGet, h],
            cmpContrib_null_right]
          exact ⟨_, rfl⟩
    · cases hr : MLPredictor.rsiContrib (dictGet ind "rsi_14" (mkNum 50)) with
      | error e => exact ⟨e, rfl⟩
      | ok c1 =>
          cases hm : MLPredictor.cmpContrib (dictGet ind "macd" (mkNum 0))
              (dictGet ind "macd_signal" (mkNum 0)) with
          | error e => exact ⟨e, rfl⟩
          | ok c2 =>
              rw [show dictGet ind "ema_20" (mkNum 0) = PyVal.none from by simp [dictGet, h],
                cmpContrib_null_left]
              exact ⟨_, rfl⟩
    · cases hr : MLPredictor.rsiContrib (dictGet ind "rsi_14" (mkNum 50)) with
      | error e => exact ⟨e, rfl⟩
      | ok c1 =>
          cases hm : MLPredictor.cmpContrib (dictGet ind "macd" (mkNum 0))
              (dictGet ind "macd_signal" (mkNum 0)) with
          | error e => exact ⟨e, rfl⟩
          | ok c2 =>
              rw [show dictGet ind "ema_50" (mkNum 0) = PyVal.none from by simp [dictGet, h],
                cmpContrib_null_right]
              exact ⟨_, rfl⟩
  obtain ⟨e, he⟩ := hbody
  have hrules : MLPredictor.predict_with_rules ind cp = .ok Option.none := by
    unfold MLPredictor.predict_with_rules
    rw [he]
  exact ⟨hrules, by rw [predict_none_eq, hrules]⟩

/-- **C9** (witness): a dictionary with `rsi_14 = None` yields no signal. -/
theorem c9_null_indicator_witness :
    ([("rsi_14", PyVal.none)] : PyDict).lookup "rsi_14" = some PyVal.none ∧
    MLPredictor.predict_with_rules [("rsi_14", PyVal.none)] Option.none = .ok Option.none ∧
    MLPredictor.predict Option.none [] [("rsi_14", PyVal.none)] Option.none Option.none =
      .ok Option.none :=
  ⟨rfl,
   (c9_null_indicator_no_signal [("rsi_14", PyVal.none)] Option.none [] Option.none
     (Or.inl rfl)).1,
   (c9_null_indicator_no_signal [("rsi_14", PyVal.none)] Option.none [] Option.none
     (Or.inl rfl)).2⟩

/-- A value that is not a string (numbers, including the float specials, and
`None`): comparing two such truthy values cannot raise in the cross signals. -/
def notStr : PyVal → Bool
  | .str _ => false
  | _ => true

/-- A cross signal over non-string operands always computes (no `TypeError`). -/
theorem crossSignal_ok_of_notStr (a b : PyVal) (ha : notStr a = true) (hb : notStr b = true) :
    ∃ v, FeatureEngineer.crossSignal a b = .ok v := by
  cases a with
  | str s => simp [notStr] at ha
  | none => exact ⟨mkNum 0, by simp [FeatureEngineer.crossSignal, PyVal.truthy]⟩
  | num x =>
    cases b with
    | str s => simp [notStr] at hb
    | none => exact ⟨mkNum 0, by simp [FeatureEngineer.crossSignal, PyVal.truthy]⟩
    | num y =>
        by_cases ht : ((PyVal.num x).truthy && (PyVal.num y).truthy) = true
        · cases hg : x.gt y
          · exact ⟨mkNum (-1), by simp [FeatureEngineer.crossSignal, ht, PyVal.gtE, hg]⟩
          · exact ⟨mkNum 1, by simp [FeatureEngineer.crossSignal, ht, PyVal.gtE, hg]⟩
        · exact ⟨mkNum 0, by simp [FeatureEngineer.crossSignal, ht]⟩

/-- **C10**: in the trend features, two present, non-zero but exactly equal
cross inputs (e.g. EMA20 = EMA50 ≠ 0) are encoded as −1, not 0, because the
encoding is `1 if a > b else -1`; and an input that is exactly 0.0 is treated
as unavailable (cross 0), because availability is tested by truthiness.  The
remaining cross inputs are assumed non-string so that the other cross
comparisons do not raise (which would empty the whole feature group). -/
theorem c10_trend_cross_encoding :
    (∀ (ind : PyDict) (q : ℚ), q ≠ 0 →
      ind.lookup "ema_20" = some (mkNum q) → ind.lookup "ema_50" = some (mkNum q) →
      notStr (dictGetRaw ind "ema_200") = true → notStr (dictGetRaw ind "macd") = true →
      notStr (dictGetRaw ind "macd_signal") = true →
      (FeatureEngineer.create_trend_features ind).lookup "ema_20_50_cross" =
        some (mkNum (-1))) ∧
    (∀ ind : PyDict, ind.lookup "ema_20" = some (mkNum 0) →
      notStr (dictGetRaw ind "ema_50") = true → notStr (dictGetRaw ind "ema_200") = true →
      notStr (dictGetRaw ind "macd") = true → notStr (dictGetRaw ind "macd_signal") = true →
      (FeatureEngineer.create_trend_features ind).lookup "ema_20_50_cross" =
        some (mkNum 0)) := by
  constructor
  · intro ind q hq h20 h50 hn200 hnm hnms
    have g20 : dictGetRaw ind "ema_20" = mkNum q := by simp [dictGetRaw, dictGet, h20]
    have g50 : dictGetRaw ind "ema_50" = mkNum q := by simp [dictGetRaw, dictGet, h50]
    have hc1 : FeatureEngineer.crossSignal (dictGetRaw ind "ema_20") (dictGetRaw ind "ema_50") =
        .ok (mkNum (-1)) := by
      rw [g20, g50]
      simp [FeatureEngineer.crossSignal, PyVal.truthy, PyFloat.truthy, hq, PyVal.gtE,
        PyFloat.gt, PyFloat.lt, mkNum]
    obtain ⟨v2, hc2⟩ := crossSignal_ok_of_notStr (dictGetRaw ind "ema_50")
      (dictGetRaw ind "ema_200") (by rw [g50]; rfl) hn200
    obtain ⟨v3, hc3⟩ := crossSignal_ok_of_notStr (dictGetRaw ind "macd")
      (dictGetRaw ind "macd_signal") hnm hnms
    unfold FeatureEngineer.create_trend_features FeatureEngineer.create_trend_features_body
    rw [hc1, hc2, hc3]
    simp [List.lookup]
  · intro ind h20 hn50 hn200 hnm hnms
    have g20 : dictGetRaw ind "ema_20" = mkNum 0 := by simp [dictGetRaw, dictGet, h20]
    have hc1 : FeatureEngineer.crossSignal (dictGetRaw ind "ema_20") (dictGetRaw ind "ema_50") =
        .ok (mkNum 0) := by
      rw [g20]
      simp [FeatureEngineer.crossSignal, PyVal.truthy, PyFloat.truthy, mkNum]
    obtain ⟨v2, hc2⟩ := crossSignal_ok_of_notStr (dictGetRaw ind "ema_50")
      (dictGetRaw ind "ema_200") hn50 hn200
    obtain ⟨v3, hc3⟩ := crossSignal_ok_of_notStr (dictGetRaw ind "macd")
      (dictGetRaw ind "macd_signal") hnm hnms
    unfold FeatureEngineer.create_trend_features FeatureEngineer.create_trend_features_body
    rw [hc1, hc2, hc3]
    simp [List.lookup]

/-- **C10** (witness): EMA20 = EMA50 = 5 encodes the cross as −1;
EMA20 = 0 (with EMA50 = 7 present) encodes it as 0. -/
theorem c10_trend_cross_witness :
    (FeatureEngineer.create_trend_features
      [("ema_20", mkNum 5), ("ema_50", mkNum 5)]).lookup "ema_20_50_cross" =
        some (mkNum (-1)) ∧
    (FeatureEngineer.create_trend_features
      [("ema_20", mkNum 0), ("ema_50", mkNum 7)]).lookup "ema_20_50_cross" =
        some (mkNum 0) :=
  ⟨c10_trend_cross_encoding.1 [("ema_20", mkNum 5), ("ema_50", mkNum 5)] 5
    (by norm_num) rfl rfl rfl rfl rfl,
   c10_trend_cross_encoding.2 [("ema_20", mkNum 0), ("ema_50", mkNum 7)]
    rfl rfl rfl rfl rfl⟩

/-- Every entry of the gain series is non-negative. -/
theorem gainList_nonneg (closes : List ℚ) :
    ∀ x ∈ IndicatorCalculator.gainList closes, 0 ≤ x := by
  intro x hx
  cases closes with
  | nil => simp [IndicatorCalculator.gainList] at hx
  | cons c cs =>
      simp only [IndicatorCalculator.gainList, List.mem_cons, List.mem_map] at hx
      rcases hx with rfl | ⟨d, -, rfl⟩
      · exact le_refl 0
      · by_cases hd : 0 < d
        · simpa [hd] using hd.le
        · simp [hd]

/-- Every entry of the loss series is non-negative. -/
theorem lossList_nonneg (closes : List ℚ) :
    ∀ x ∈ IndicatorCalculator.lossList closes, 0 ≤ x := by
  intro x hx
  cases closes with
  | nil => simp [IndicatorCalculator.lossList] at hx
  | cons c cs =>
      simp only [IndicatorCalculator.lossList, List.mem_cons, List.mem_map] at hx
      rcases hx with rfl | ⟨d, -, rfl⟩
      · exact le_refl 0
      · by_cases hd : d < 0
        · simpa [hd] using neg_nonneg.mpr hd.le
        · simp [hd]

/-- A rolling mean of a non-negative series is non-negative. -/
theorem rollingMeanLast_nonneg (xs : List ℚ) (p : ℕ) (v : ℚ)
    (hv : IndicatorCalculator.rollingMeanLast xs p = some v) (hxs : ∀ x ∈ xs, 0 ≤ x) :
    0 ≤ v := by
  unfold IndicatorCalculator.rollingMeanLast at hv
  split at hv
  · injection hv with hv
    subst hv
    apply div_nonneg
    · exact List.sum_nonneg fun x hx => hxs x (List.mem_of_mem_drop hx)
    · positivity
  · exact absurd hv (by simp)

/-- Deltas of a constant close series are all zero. -/
theorem pairDiffs_replicate (n : ℕ) (c : ℚ) :
    IndicatorCalculator.pairDiffs (List.replicate (n + 1) c) = List.replicate n 0 := by
  unfold IndicatorCalculator.pairDiffs
  rw [List.tail_replicate, List.zipWith_replicate]
  simp

/-- The gain series of a constant close series is all zeros. -/
theorem gainList_replicate (n : ℕ) (c : ℚ) :
    IndicatorCalculator.gainList (List.replicate (n + 1) c) = List.replicate (n + 1) 0 := by
  have h : IndicatorCalculator.gainList (List.replicate (n + 1) c) =
      0 :: (IndicatorCalculator.pairDiffs (List.replicate (n + 1) c)).map
        (fun d => if 0 < d then d else 0) := by
    rw [List.replicate_succ]
    rfl
  rw [h, pairDiffs_replicate]
  simp [List.replicate_succ]

/-- The loss series of a constant close series is all zeros. -/
theorem lossList_replicate (n : ℕ) (c : ℚ) :
    IndicatorCalculator.lossList (List.replicate (n + 1) c) = List.replicate (n + 1) 0 := by
  have h : IndicatorCalculator.lossList (List.replicate (n + 1) c) =
      0 :: (IndicatorCalculator.pairDiffs (List.replicate (n + 1) c)).map
        (fun d => if d < 0 then -d else 0) := by
    rw [List.replicate_succ]
    rfl
  rw [h, pairDiffs_replicate]
  simp [List.replicate_succ]

/-- The rolling mean of an all-zero series is zero. -/
theorem rollingMeanLast_replicate_zero (n p : ℕ) (hp : 0 < p) (hpn : p ≤ n) :
    IndicatorCalculator.rollingMeanLast (List.replicate n (0:ℚ)) p = some 0 := by
  unfold IndicatorCalculator.rollingMeanLast
  rw [if_pos (by simp [hp, hpn])]
  simp [List.drop_replicate]

/-- **C8**: whenever the RSI is non-null it is a finite value in `[0, 100]` —
including the all-gain window, where the zero loss mean makes `rs = inf` and
`RSI = 100` — and on a flat (constant-price) window, where both rolling means
are zero, `rs = 0/0 = NaN` and the RSI is null. -/
theorem c8_rsi_bounds :
    (∀ (closes : List ℚ) (period : ℕ) (r : PyFloat),
      IndicatorCalculator.calculate_rsi closes period = some r →
      ∃ q : ℚ, r = .fin q ∧ 0 ≤ q ∧ q ≤ 100) ∧
    (∀ (c : ℚ) (n period : ℕ), 0 < period → period + 1 ≤ n →
      IndicatorCalculator.calculate_rsi (List.replicate n c) period = none) := by
  constructor
  · intro closes period r hr
    unfold IndicatorCalculator.calculate_rsi at hr
    cases hg : IndicatorCalculator.rollingMeanLast
        (IndicatorCalculator.gainList closes) period with
    | none => rw [hg] at hr; simp at hr
    | some g =>
      cases hl : IndicatorCalculator.rollingMeanLast
          (IndicatorCalculator.lossList closes) period with
      | none => rw [hg, hl] at hr; simp at hr
      | some l =>
          rw [hg, hl] at hr
          have hgn : 0 ≤ g := rollingMeanLast_nonneg _ _ _ hg (gainList_nonneg closes)
          have hln : 0 ≤ l := rollingMeanLast_nonneg _ _ _ hl (lossList_nonneg closes)
          by_cases hl0 : l = 0
          · by_cases hg0 : g = 0
            · simp [hg0, hl0, PyFloat.div, PyFloat.add, PyFloat.sub, PyFloat.neg] at hr
            · have hgp : 0 < g := lt_of_le_of_ne hgn (Ne.symm hg0)
              refine ⟨100, ?_, by norm_num, by norm_num⟩
              simp [hl0, hgp, hg0, PyFloat.div, PyFloat.add, PyFloat.sub, PyFloat.neg] at hr
              exact hr.symm
          · have hlp : 0 < l := lt_of_le_of_ne hln (Ne.symm hl0)
            have hx : 0 ≤ g / l := div_nonneg hgn hln
            have h1x : (0:ℚ) < 1 + g / l := by linarith
            refine ⟨100 - 100 / (1 + g / l), ?_, ?_, ?_⟩
            · simp [PyFloat.div, PyFloat.add, PyFloat.sub, PyFloat.neg, hl0, h1x.ne'] at hr
              rw [← hr]
              congr 1
              ring
            · have : 100 / (1 + g / l) ≤ 100 := div_le_self (by norm_num) (by linarith)
              linarith
            · have : 0 < 100 / (1 + g / l) := by positivity
              linarith
  · intro c n period hp hn
    obtain ⟨m, rfl⟩ : ∃ m, n = m + 1 := ⟨n - 1, by omega⟩
    unfold IndicatorCalculator.calculate_rsi
    rw [gainList_replicate, lossList_replicate,
      rollingMeanLast_replicate_zero _ _ hp (by omega)]
    simp [PyFloat.div, PyFloat.add, PyFloat.sub, PyFloat.neg]

/-- **C8** (witness): on closes 1, 2, 4, 3 with period 2 the RSI is 200/3
(within `[0, 100]`); a flat window of three candles at price 5 gives a null
RSI. -/
theorem c8_rsi_bounds_witness :
    IndicatorCalculator.calculate_rsi [1, 2, 4, 3] 2 = some (.fin (200/3)) ∧
    (∃ q : ℚ, PyFloat.fin (200/3) = .fin q ∧ 0 ≤ q ∧ q ≤ 100) ∧
    IndicatorCalculator.calculate_rsi (List.replicate 3 5) 2 = none := by
  have heval : IndicatorCalculator.calculate_rsi [1, 2, 4, 3] 2 = some (.fin (200/3)) := by
    simp [IndicatorCalculator.calculate_rsi, IndicatorCalculator.rollingMeanLast,
      IndicatorCalculator.gainList, IndicatorCalculator.lossList,
      IndicatorCalculator.pairDiffs, PyFloat.div, PyFloat.add, PyFloat.sub, PyFloat.neg]
    norm_num
    exact fun h => PyFloat.noConfusion h
  exact ⟨heval, c8_rsi_bounds.1 [1, 2, 4, 3] 2 _ heval,
    c8_rsi_bounds.2 5 3 2 (by norm_num) (by norm_num)⟩

/-- A feature value that is a finite float. -/
def isFiniteNum : PyVal → Bool
  | .num (.fin _) => true
  | _ => false

/-- Every value of a feature dictionary is a finite float. -/
def allFinite (fs : List (String × PyVal)) : Bool := fs.all (fun kv => isFiniteNum kv.2)

/-- A value that is not a float special (`nan`, `inf`, `-inf`). -/
def noNanInf : PyVal → Bool
  | .num .nan => false
  | .num .inf => false
  | .num .ninf => false
  | _ => true

/-- No dictionary value is a float special. -/
def dictNoNanInf (d : PyDict) : Bool := d.all (fun kv => noNanInf kv.2)

/-- No market-context value is a float special (vacuous without a context). -/
def ctxNoNanInf : Option PyDict → Bool
  | some c => dictNoNanInf c
  | Option.none => true

/-- A successful dictionary lookup comes from an entry of the list. -/
theorem lookup_mem {d : PyDict} {k : String} {v : PyVal} (h : d.lookup k = some v) :
    (k, v) ∈ d := by
  rw [List.lookup_eq_some_iff] at h
  obtain ⟨l1, l2, rfl, -⟩ := h
  simp

/-- The final coercion loop maps every non-special value to a finite float
(`None` and non-numerics to 0.0). -/
theorem coerce_finite (v : PyVal) (h : noNanInf v = true) :
    isFiniteNum (FeatureEngineer.coerceToFloat v) = true := by
  cases v with
  | none => rfl
  | str s => rfl
  | num x => cases x <;> simp_all [noNanInf, isFiniteNum, FeatureEngineer.coerceToFloat]

/-- `dict.get` with a non-special default yields a non-special value whenever
the dictionary holds no specials. -/
theorem dictGet_noNanInf (d : PyDict) (k : String) (dflt : PyVal)
    (hd : dictNoNanInf d = true) (hdef : noNanInf dflt = true) :
    noNanInf (dictGet d k dflt) = true := by
  unfold dictGet
  cases hl : d.lookup k with
  | none => exact hdef
  | some v => exact List.all_eq_true.mp hd _ (lookup_mem hl)

/-- A cross signal, when it computes, is one of the finite codes −1, 0, +1. -/
theorem crossSignal_shape (a b v : PyVal) (h : FeatureEngineer.crossSignal a b = .ok v) :
    ∃ q : ℚ, v = mkNum q := by
  unfold FeatureEngineer.crossSignal at h
  split at h
  · cases hg : a.gtE b with
    | error e => rw [hg] at h; exact absurd h (by simp)
    | ok bl =>
        rw [hg] at h
        cases bl
        · exact ⟨-1, by injection h with h; exact h.symm⟩
        · exact ⟨1, by injection h with h; exact h.symm⟩
  · exact ⟨0, by injection h with h; exact h.symm⟩

/-- Trend feature values are never float specials. -/
theorem trend_noNanInf (ind : PyDict) :
    ∀ kv ∈ FeatureEngineer.create_trend_features ind, noNanInf kv.2 = true := by
  intro kv hkv
  unfold FeatureEngineer.create_trend_features at hkv
  cases hb : FeatureEngineer.create_trend_features_body ind with
  | error e => rw [hb] at hkv; simp at hkv
  | ok fs =>
      rw [hb] at hkv
      unfold FeatureEngineer.create_trend_features_body at hb
      cases h1 : FeatureEngineer.crossSignal (dictGetRaw ind "ema_20")
          (dictGetRaw ind "ema_50") with
      | error e => rw [h1] at hb; exact absurd hb (by simp)
      | ok c1 =>
      cases h2 : FeatureEngineer.crossSignal (dictGetRaw ind "ema_50")
          (dictGetRaw ind "ema_200") with
      | error e => rw [h1, h2] at hb; exact absurd hb (by simp)
      | ok c2 =>
      cases h3 : FeatureEngineer.crossSignal (dictGetRaw ind "macd")
          (dictGetRaw ind "macd_signal") with
      | error e => rw [h1, h2, h3] at hb; exact absurd hb (by simp)
      | ok c3 =>
          rw [h1, h2, h3] at hb
          injection hb with hb
          obtain ⟨q1, rfl⟩ := crossSignal_shape _ _ _ h1
          obtain ⟨q2, rfl⟩ := crossSignal_shape _ _ _ h2
          obtain ⟨q3, rfl⟩ := crossSignal_shape _ _ _ h3
          subst hb
          simp at hkv
          rcases hkv with rfl | rfl | rfl | h
          · rfl
          · rfl
          · rfl
          · split at h <;> (subst h; rfl)

/-- Price feature values are never float specials, given the two close
denominators are non-zero when used. -/
theorem price_noNanInf (candles : List Candle)
    (h2 : 2 ≤ candles.length → FeatureEngineer.closeFromEnd candles 2 ≠ 0)
    (h6 : 6 ≤ candles.length → FeatureEngineer.closeFromEnd candles 6 ≠ 0) :
    ∀ kv ∈ FeatureEngineer.create_price_features candles, noNanInf kv.2 = true := by
  intro kv hkv
  unfold FeatureEngineer.create_price_features at hkv
  cases hl : candles.getLast? with
  | none => rw [hl] at hkv; simp at hkv
  | some last =>
      rw [hl] at hkv
      simp at hkv
      rcases hkv with rfl | rfl | rfl | rfl
      · by_cases hn : 2 ≤ candles.length
        · simp [hn, PyFloat.div, PyFloat.mul, PyFloat.sub, PyFloat.neg, h2 hn, noNanInf]
        · simp [hn, noNanInf, mkNum]
      · by_cases hn : 6 ≤ candles.length
        · simp [hn, PyFloat.div, PyFloat.mul, PyFloat.sub, PyFloat.neg, h6 hn, noNanInf]
        · simp [hn, noNanInf, mkNum]
      · split <;> rfl
      · split <;> rfl

/-- Volume feature values are never float specials (the volume change is
guarded against a zero denominator in the source). -/
theorem volume_noNanInf (candles : List Candle) (ind : PyDict)
    (hd : dictNoNanInf ind = true) :
    ∀ kv ∈ FeatureEngineer.create_volume_features candles ind, noNanInf kv.2 = true := by
  intro kv hkv
  unfold FeatureEngineer.create_volume_features at hkv
  simp at hkv
  rcases hkv with rfl | rfl | rfl
  · exact dictGet_noNanInf _ _ _ hd rfl
  · split
    · split <;> rfl
    · rfl
  · split <;> rfl

/-- Volatility feature values are never float specials. -/
theorem volatility_noNanInf (ind : PyDict) (hd : dictNoNanInf ind = true) :
    ∀ kv ∈ FeatureEngineer.create_volatility_features ind, noNanInf kv.2 = true := by
  intro kv hkv
  simp [FeatureEngineer.create_volatility_features] at hkv
  rcases hkv with rfl | rfl <;> exact dictGet_noNanInf _ _ _ hd rfl

/-- Momentum feature values are never float specials. -/
theorem momentum_noNanInf (ind : PyDict) (hd : dictNoNanInf ind = true) :
    ∀ kv ∈ FeatureEngineer.create_momentum_features ind, noNanInf kv.2 = true := by
  intro kv hkv
  simp [FeatureEngineer.create_momentum_features] at hkv
  rcases hkv with rfl | rfl | rfl | rfl | rfl | rfl | rfl <;>
    exact dictGet_noNanInf _ _ _ hd rfl

/-- Market-context feature values are never float specials. -/
theorem context_noNanInf (ctx : Option PyDict) (hc : ctxNoNanInf ctx = true) :
    ∀ kv ∈ FeatureEngineer.contextFeatures ctx, noNanInf kv.2 = true := by
  intro kv hkv
  cases ctx with
  | none =>
      simp [FeatureEngineer.contextFeatures] at hkv
      rcases hkv with rfl | rfl | rfl <;> rfl
  | some c =>
      simp [FeatureEngineer.contextFeatures] at hkv
      rcases hkv with rfl | rfl | rfl
      · exact dictGet_noNanInf _ _ _ hc rfl
      · exact dictGet_noNanInf _ _ _ hc rfl
      · split
        · rfl
        · split <;> rfl

/-- **C7** (counterexample): a `NaN` indicator value passes the final
`isinstance(value, (int, float))` coercion untouched — `NaN` *is* a float —
so the feature vector `create_all_features([], {'atr': nan}, None)` contains
a non-finite value, contradicting the claim as stated. -/
theorem c7_nan_counterexample :
    allFinite (FeatureEngineer.create_all_features [] [("atr", .num .nan)] Option.none) =
      false ∧
    (FeatureEngineer.create_all_features [] [("atr", .num .nan)] Option.none).lookup "atr" =
      some (.num .nan) := by
  constructor <;> rfl

/-- **C7** (amended): every value of the returned feature vector is a finite
float — null, missing or non-numeric inputs are coerced to 0.0 — provided no
numeric input value (indicator or market context) is `NaN` or infinite, and
the closes two and six bars back are non-zero when those percentage-change
denominators are used. -/
theorem c7_features_finite :
    ∀ (candles : List Candle) (ind : PyDict) (ctx : Option PyDict),
      dictNoNanInf ind = true → ctxNoNanInf ctx = true →
      (2 ≤ candles.length → FeatureEngineer.closeFromEnd candles 2 ≠ 0) →
      (6 ≤ candles.length → FeatureEngineer.closeFromEnd candles 6 ≠ 0) →
      allFinite (FeatureEngineer.create_all_features candles ind ctx) = true := by
  intro candles ind ctx hd hc h2 h6
  unfold FeatureEngineer.create_all_features allFinite
  rw [List.all_eq_true]
  intro kv hkv
  simp only [List.mem_map] at hkv
  obtain ⟨⟨k, v⟩, hmem, rfl⟩ := hkv
  apply coerce_finite
  simp only [List.mem_append] at hmem
  rcases hmem with ((((h | h) | h) | h) | h) | h
  · exact price_noNanInf candles h2 h6 _ h
  · exact trend_noNanInf ind _ h
  · exact volume_noNanInf candles ind hd _ h
  · exact volatility_noNanInf ind hd _ h
  · exact momentum_noNanInf ind hd _ h
  · exact context_noNanInf ctx hc _ h

/-- **C7** (witness): a small NaN-free input produces an all-finite feature
vector. -/
theorem c7_features_finite_witness :
    dictNoNanInf [("rsi_14", mkNum 40), ("atr", mkNum 2)] = true ∧
    allFinite (FeatureEngineer.create_all_features []
      [("rsi_14", mkNum 40), ("atr", mkNum 2)] Option.none) = true :=
  ⟨rfl, c7_features_finite [] [("rsi_14", mkNum 40), ("atr", mkNum 2)] Option.none rfl rfl
    (fun h => absurd h (by simp)) (fun h => absurd h (by simp))⟩

/-- **C6** (counterexample): on the 20-close window
`[7,7,7,7,1,1,1,1,5,5,3,3,4,4,4,4,4,4,4,4]` the middle band is 4 (non-null,
non-zero) and the lower band is exactly 0, yet the width is `None`: the code
tests all three bands by truthiness (`if upper_val and lower_val and
middle_val`), so a zero *lower* band also nullifies the width, contradicting
"null exactly when the middle band is null or zero". -/
theorem c6_width_counterexample :
    (IndicatorCalculator.calculate_bollinger_bands
      [7, 7, 7, 7, 1, 1, 1, 1, 5, 5, 3, 3, 4, 4, 4, 4, 4, 4, 4, 4]).bb_middle = some 4 ∧
    (IndicatorCalculator.calculate_bollinger_bands
      [7, 7, 7, 7, 1, 1, 1, 1, 5, 5, 3, 3, 4, 4, 4, 4, 4, 4, 4, 4]).bb_lower = some 0 ∧
    (IndicatorCalculator.calculate_bollinger_bands
      [7, 7, 7, 7, 1, 1, 1, 1, 5, 5, 3, 3, 4, 4, 4, 4, 4, 4, 4, 4]).bb_width =
      Option.none := by
  have hsma : IndicatorCalculator.sma
      [7, 7, 7, 7, 1, 1, 1, 1, 5, 5, 3, 3, 4, 4, 4, 4, 4, 4, 4, 4] = 4 := by
    unfold IndicatorCalculator.sma
    norm_num
  have hvar : IndicatorCalculator.sampleVar
      [7, 7, 7, 7, 1, 1, 1, 1, 5, 5, 3, 3, 4, 4, 4, 4, 4, 4, 4, 4] = 4 := by
    unfold IndicatorCalculator.sampleVar
    rw [hsma]
    norm_num
  have hsd : Real.sqrt (IndicatorCalculator.sampleVar
      [7, 7, 7, 7, 1, 1, 1, 1, 5, 5, 3, 3, 4, 4, 4, 4, 4, 4, 4, 4]) = 2 := by
    rw [hvar, show (4:ℝ) = 2^2 by norm_num, Real.sqrt_sq (by norm_num)]
  unfold IndicatorCalculator.calculate_bollinger_bands
  rw [if_pos (by norm_num)]
  simp only [List.length_cons, List.length_nil]
  norm_num [hsma, hsd]

/-- **C6** (amended): the width equals `(upper − lower) / middle × 100`
whenever it is non-null, and it is null exactly when the middle band is null,
or any of the middle, upper, or lower band values is zero (availability of
each band is tested by truthiness). -/
theorem c6_width_nullability :
    ∀ closes : List ℝ,
      ((IndicatorCalculator.calculate_bollinger_bands closes).bb_width = Option.none ↔
        ((IndicatorCalculator.calculate_bollinger_bands closes).bb_middle = Option.none ∨
         (IndicatorCalculator.calculate_bollinger_bands closes).bb_middle = some 0 ∨
         (IndicatorCalculator.calculate_bollinger_bands closes).bb_upper = some 0 ∨
         (IndicatorCalculator.calculate_bollinger_bands closes).bb_lower = some 0)) ∧
      (∀ w, (IndicatorCalculator.calculate_bollinger_bands closes).bb_width = some w →
        ∃ u m l, (IndicatorCalculator.calculate_bollinger_bands closes).bb_upper = some u ∧
          (IndicatorCalculator.calculate_bollinger_bands closes).bb_middle = some m ∧
          (IndicatorCalculator.calculate_bollinger_bands closes).bb_lower = some l ∧
          w = (u - l) / m * 100) := by
  intro closes
  unfold IndicatorCalculator.calculate_bollinger_bands
  by_cases h20 : 20 ≤ closes.length
  · rw [if_pos h20]
    constructor
    · simp only
      split_ifs with hcond
      · simp [hcond.1, hcond.2.1, hcond.2.2]
      · rw [not_and_or, not_and_or] at hcond
        simp only [reduceCtorEq, true_iff, Option.some.injEq]
        rcases hcond with h | h | h
        · exact Or.inr (Or.inr (Or.inl (not_ne_iff.mp h)))
        · exact Or.inr (Or.inr (Or.inr (not_ne_iff.mp h)))
        · exact Or.inr (Or.inl (not_ne_iff.mp h))
    · intro w hw
      simp only at hw ⊢
      split_ifs at hw with hcond
      injection hw with hw
      exact ⟨_, _, _, rfl, rfl, rfl, hw.symm⟩
  · rw [if_neg h20]
    constructor
    · simp
    · intro w hw
      simp at hw

/-- **C6** (witness): a constant 20-close window at price 4 has
`upper = middle = lower = 4` and a (zero, but non-null) width satisfying the
formula. -/
theorem c6_width_witness :
    (IndicatorCalculator.calculate_bollinger_bands (List.replicate 20 (4:ℝ))).bb_width =
      some 0 ∧
    (∃ u m l,
      (IndicatorCalculator.calculate_bollinger_bands (List.replicate 20 (4:ℝ))).bb_upper =
        some u ∧
      (IndicatorCalculator.calculate_bollinger_bands (List.replicate 20 (4:ℝ))).bb_middle =
        some m ∧
      (IndicatorCalculator.calculate_bollinger_bands (List.replicate 20 (4:ℝ))).bb_lower =
        some l ∧
      (0:ℝ) = (u - l) / m * 100) := by
  have hsma : IndicatorCalculator.sma (List.replicate 20 (4:ℝ)) = 4 := by
    unfold IndicatorCalculator.sma
    simp [List.sum_replicate]
    norm_num
  have hvar : IndicatorCalculator.sampleVar (List.replicate 20 (4:ℝ)) = 0 := by
    unfold IndicatorCalculator.sampleVar
    rw [hsma]
    simp [List.map_replicate, List.sum_replicate]
  have heval : (IndicatorCalculator.calculate_bollinger_bands
      (List.replicate 20 (4:ℝ))).bb_width = some 0 := by
    unfold IndicatorCalculator.calculate_bollinger_bands
    rw [if_pos (by simp)]
    simp only [List.length_replicate, Nat.sub_self, List.drop_zero]
    rw [hsma, hvar, Real.sqrt_zero]
    norm_num
  exact ⟨heval, c6_width_nullability (List.replicate 20 (4:ℝ)) |>.2 0 heval⟩
